import Mathlib

/-!
Verification of the Medical-Receipts-OCR pipeline core against its
natural-language specification.  The Python sources under `app/` are shallowly
embedded: pure geometric routines become Lean functions over `Int`/`ℚ`
(Python `int()` truncation is modelled exactly, the float constants 4.0, 5.8,
5.9 and 0.3 are modelled by the rationals they denote), stateful Celery tasks
become functions that return their event lists, decrement counts and results
explicitly, and the external adapters (layout detector, QR detector, LLM
endpoint, `json.loads`) are passed in as oracle arguments.
-/

namespace MedOCR

/-- An axis-aligned bounding box `[x1, y1, x2, y2]`, as used throughout
`app/core/document/pdf_processor.py` (pixel coordinates, integers after the
`map(int, ...)` conversions in the source). -/
structure Box where
  x1 : Int
  y1 : Int
  x2 : Int
  y2 : Int
deriving DecidableEq, Repr

instance : Inhabited Box := ⟨⟨0, 0, 0, 0⟩⟩

/-- Python `int()` applied to a rational value: truncation toward zero.
Models the `int(...)` casts in `process_and_crop_qr_region`. -/
def pyInt (q : ℚ) : Int := q.num.tdiv q.den

/-- The exact rational value of a Python float constant, kept as an explicit
fraction so that the embedding stays kernel-computable (`4.0 = 4/1`,
`5.8 = 29/5`, `5.9 = 59/10`). -/
structure PyFloat where
  num : Int
  den : Nat
deriving DecidableEq, Repr

def PyFloat.val (f : PyFloat) : ℚ := (f.num : ℚ) / (f.den : ℚ)

/-- `int(a + w * f)` computed exactly over the integers:
`a + w * (num/den) = (a * den + w * num) / den`, truncated toward zero. -/
def pyTruncMulAdd (a w : Int) (f : PyFloat) : Int :=
  (a * f.den + w * f.num).tdiv f.den

/-- The 180° coordinate remap of `process_and_crop_qr_region`
(`pdf_processor.py` lines 871-877 for the QR box and 892-898 for the layout
boxes): `x1r = W - x2, y1r = H - y2, x2r = W - x1, y2r = H - y1`, then each
pair is re-sorted with `min`/`max` so the smaller coordinate comes first. -/
def rotateBox180 (W H : Int) (b : Box) : Box :=
  let x1r := W - b.x2
  let y1r := H - b.y2
  let x2r := W - b.x1
  let y2r := H - b.y1
  { x1 := min x1r x2r, y1 := min y1r y2r, x2 := max x1r x2r, y2 := max y1r y2r }

/-- The largest-gap scan of `determine_orientation` (`pdf_processor.py`
lines 823-829): starting from `max_gap = 0, split_index = 0`, walk
`i = 0 .. len-2` and record the first index whose gap strictly exceeds the
running maximum. -/
def findMaxGapSplit (ys : List Int) : Nat :=
  ((List.range (ys.length - 1)).foldl
    (fun st i =>
      if st.1 < ys.getD (i + 1) 0 - ys.getD i 0
      then (ys.getD (i + 1) 0 - ys.getD i 0, i) else st)
    ((0 : Int), (0 : Nat))).2

/-- `determine_orientation` (`pdf_processor.py` lines 817-840): fewer than 3
finder-pattern centroids give 0; otherwise the y-coordinates are sorted, the
list is split after the largest gap, and the result is 0 when the top group
is strictly larger than the bottom group, else 180. -/
def determine_orientation (pattern_centers : List (Int × Int)) : Nat :=
  if pattern_centers.length < 3 then 0
  else
    let y_coords := (pattern_centers.map Prod.snd).insertionSort (· ≤ ·)
    let split_index := findMaxGapSplit y_coords
    let count_top := split_index + 1
    let count_bottom := y_coords.length - (split_index + 1)
    if count_bottom < count_top then 0 else 180

/-- The observable content of the image returned by
`process_and_crop_qr_region`: the orientation that was applied, the final
crop rectangle, the expanded-crop area used by the whitening guard, and the
clamped boxes that were painted white. -/
structure CropOut where
  orientationAngle : Nat
  finalBox : Box
  expandedArea : Int
  whitened : List Box
deriving DecidableEq, Repr

/-- The crop rectangle exactly as the specification words it: for the
(possibly rotated) QR box `qb` with `w = x2-x1`, `h = y2-y1`, the rectangle
`[x1, y2 - h*Eup, x1 + w*Eright, y2]` clamped to the `W×H` image bounds. -/
def specCropRect (W H : Int) (qb : Box) (eUp eRight : ℚ) : Box :=
  { x1 := max 0 qb.x1
    y1 := max 0 (pyInt ((qb.y2 : ℚ) - ((qb.y2 - qb.y1 : Int) : ℚ) * eUp))
    x2 := min W (pyInt ((qb.x1 : ℚ) + ((qb.x2 - qb.x1 : Int) : ℚ) * eRight))
    y2 := min H qb.y2 }

/-- The orientation angle selected by `process_and_crop_qr_region` lines
851-859: the finder patterns are consulted only when the first QR crop is
non-empty and at least 3 centroids were found. -/
@[inline] def qrOrientation (target : Box) (patternCenters : List (Int × Int)) : Nat :=
  if target.x1 < target.x2 ∧ target.y1 < target.y2 then
    if 3 ≤ patternCenters.length then determine_orientation patternCenters else 0
  else 0

/-- `process_and_crop_qr_region` (`pdf_processor.py` lines 846-914).
Pixel data is abstracted: `patternCenters` stands for the output of
`get_finder_patterns` on the cropped QR region (consulted only when that
crop is non-empty), and the returned image is represented by the crop
rectangle together with the whitening actions applied before cropping.
Returns `none` when there is no detection or the final crop is empty. -/
def process_and_crop_qr_region (W H : Int) (detections imageBoxes : List Box)
    (patternCenters : List (Int × Int)) (eUp eRight : PyFloat) : Option CropOut :=
  match detections with
  | [] => none
  | target :: _ =>
    let orientationAngle := qrOrientation target patternCenters
    let qb := if orientationAngle = 180 then rotateBox180 W H target else target
    let wBox := qb.x2 - qb.x1
    let hBox := qb.y2 - qb.y1
    let y1f := max 0 (pyTruncMulAdd qb.y2 (-hBox) eUp)
    let x2f := min W (pyTruncMulAdd qb.x1 wBox eRight)
    let x1f := max 0 qb.x1
    let y2f := min H qb.y2
    let expandedArea := (x2f - x1f) * (y2f - y1f)
    let whitened :=
      (imageBoxes.map (fun ib =>
        let rb := if orientationAngle = 180 then rotateBox180 W H ib else ib
        Box.mk (max 0 rb.x1) (max 0 rb.y1) (min W rb.x2) (min H rb.y2))).filter
        (fun cb => 10 * ((cb.x2 - cb.x1) * (cb.y2 - cb.y1)) < 3 * expandedArea)
    if x1f < x2f ∧ y1f < y2f then
      some { orientationAngle := orientationAngle
             finalBox := ⟨x1f, y1f, x2f, y2f⟩
             expandedArea := expandedArea
             whitened := whitened }
    else none

/-- One layout detection `{label, bbox}` as produced by the layout adapter
(`process_layout`). -/
structure Detection where
  label : String
  bbox : Box
deriving DecidableEq, Repr

/-- The observable construction of the `final_image` a page-preparation
routine hands to batch inference (pixel data abstracted to the crop/erase
operations that produced it). -/
inductive FinalImage
  | fullPage
  | idcard (out : CropOut)
  | janzourCrop (belowTitle : Box) (footerCut : Option Box)
  | massaraHeaderCrop (headerCut : Option Box) (footerCut : Option Box)
deriving DecidableEq, Repr

/-- A prepared inference job `{image, prompt keyword, mode}`. -/
structure Job where
  mode : String
  keyword : String
  image : FinalImage
deriving DecidableEq, Repr

/-- The adapter responses a page-preparation routine consumes for one page:
whether `cv2.imread` succeeds, the layout detections (`none`: the layout
adapter raised), the text returned by the single-page title probe (`none`:
`_run_single_inference_task` returned an exception object), the QR
detections, and the finder-pattern centroids found inside the first QR
crop. -/
structure PageOracles where
  imageLoads : Bool
  layout : Option (List Detection)
  titleProbe : Option String
  qr : List Box
  patternCenters : List (Int × Int)
deriving DecidableEq, Repr

/-- Python `needle in hay` on strings: substring containment. -/
def pyContains (needle hay : String) : Bool := decide (List.IsInfix needle.data hay.data)

/-- `prepare_janzour_page` (`janzour_processor.py` lines 27-163).  The first
block handles a missing `doc_title` with a `paragraph_title` probe (an
exception object returned by the probe makes the later `in` test raise a
`TypeError`, caught by the surrounding `except`, so the page is skipped);
then the two identity-card branches run QR detection and call
`process_and_crop_qr_region` with `expansion_factor_right` 5.8 and 5.9
respectively; finally a present `doc_title` selects the structured crop.
`none` means the page is skipped. -/
def prepare_janzour_page (W H : Int) (o : PageOracles) : Option Job :=
  if o.imageLoads = false then none else
  match o.layout with
  | none => none
  | some results =>
    let doc_title := results.find? (fun item => item.label == "doc_title")
    let footer := results.find? (fun item => item.label == "footer")
    let paragraph_title := results.find? (fun item => item.label == "paragraph_title")
    let has_table := results.any (fun item => item.label == "table")
    let has_header := results.any
      (fun item => item.label == "header" || item.label == "header_image")
    let imageBoxes := (results.filter (fun item => item.label == "image")).map (fun d => d.bbox)
    let step1 : Option (Option FinalImage) :=
      if doc_title.isNone then
        match paragraph_title with
        | some _ =>
          match o.titleProbe with
          | none => none
          | some s =>
            if pyContains "إيصال" s && pyContains "رقم" s then some (some .fullPage)
            else none
        | none => some none
      else some none
    match step1 with
    | none => none
    | some fi0 =>
      let after2 : Option (Option FinalImage) :=
        if !has_table && has_header then
          match o.qr with
          | [] => none
          | _ :: _ =>
            match process_and_crop_qr_region W H o.qr imageBoxes o.patternCenters ⟨4, 1⟩ ⟨29, 5⟩ with
            | some out => some (some (.idcard out))
            | none => none
        else if !(has_header && has_table) then
          match o.qr with
          | [] => none
          | _ :: _ =>
            match process_and_crop_qr_region W H o.qr imageBoxes o.patternCenters ⟨4, 1⟩ ⟨59, 10⟩ with
            | some out => some (some (.idcard out))
            | none => none
        else
          match doc_title with
          | some d => some (some (.janzourCrop d.bbox (footer.map (fun f => f.bbox))))
          | none => some fi0
      match after2 with
      | none => none
      | some none => none
      | some (some img) =>
        let isIdcard := match img with | .idcard _ => true | _ => false
        some { mode := if isIdcard then "idcard" else "janzour"
               keyword := if isIdcard then "idcard" else "janzour"
               image := img }

/-- The page loop of `process_janzour_pdf` (`janzour_processor.py` lines
204-213): prepared pages are collected with their page index, pages for
which `prepare_janzour_page` returns `None` are appended to
`skipped_pages`. -/
def collect_janzour_pages (W H : Int) (idx : Nat) :
    List PageOracles → List (Nat × Job) × List Nat
  | [] => ([], [])
  | p :: rest =>
    let next := collect_janzour_pages W H (idx + 1) rest
    match prepare_janzour_page W H p with
    | some job => ((idx, job) :: next.1, next.2)
    | none => (next.1, idx :: next.2)

/-- The branch selected by `prepare_massara_page` (`massara_processor.py`
lines 62-147), as a function of the three layout flags.  The second guard is
the source's `doc_title is not None or paragraph_title is not None and
has_table`, which by Python precedence parses as
`doc or (para and table)`. -/
inductive MBranch
  | structured | medicine | idcardFallback | idcardDup | defaultFallback
deriving DecidableEq, Repr

def massara_branch (docTitle paraTitle hasTable : Bool) : MBranch :=
  if !docTitle && !paraTitle && hasTable then .structured
  else if docTitle || (paraTitle && hasTable) then .medicine
  else if !hasTable then .idcardFallback
  else if !hasTable then .idcardDup
  else .defaultFallback

/-- `prepare_massara_page` (`massara_processor.py` lines 27-161).
`titleProbe` is the medicine-branch text probe on the paragraph (or doc)
title crop (`none`: the probe returned an exception object, which fails the
`isinstance(..., str)` guard, so processing continues).  In the
identity-card branch the source calls `cv2.imwrite` on the crop *before*
checking it for `None`, so an empty crop raises out of the function
(`Except.error`); `Except.ok none` is a skipped page. -/
def prepare_massara_page (W H : Int) (o : PageOracles) : Except String (Option Job) :=
  if o.imageLoads = false then .ok none else
  match o.layout with
  | none => .ok none
  | some results =>
    let doc_title := results.find? (fun item => item.label == "doc_title")
    let footer := results.find? (fun item => item.label == "footer")
    let paragraph_title := results.find? (fun item => item.label == "paragraph_title")
    let header_image := results.find? (fun item => item.label == "header_image")
    let header := results.find? (fun item => item.label == "header")
    let has_table := results.any (fun item => item.label == "table")
    let imageBoxes := (results.filter (fun item => item.label == "image")).map (fun d => d.bbox)
    match massara_branch doc_title.isSome paragraph_title.isSome has_table with
    | .structured =>
      let target_header := match header_image with | some h => some h | none => header
      .ok (some { mode := "massara", keyword := "massara",
                  image := .massaraHeaderCrop (target_header.map (fun h => h.bbox))
                    (footer.map (fun f => f.bbox)) })
    | .medicine =>
      match o.titleProbe with
      | some s =>
        if pyContains "أدوية ومستلزمات من الايواء" s then .ok none
        else if pyContains "ورقة خروج" s || pyContains "Discharge Paper" s then .ok none
        else .ok (some { mode := "massara", keyword := "massara medicine", image := .fullPage })
      | none => .ok (some { mode := "massara", keyword := "massara medicine", image := .fullPage })
    | .idcardFallback =>
      match o.qr with
      | [] => .ok none
      | _ :: _ =>
        match process_and_crop_qr_region W H o.qr imageBoxes o.patternCenters ⟨4, 1⟩ ⟨29, 5⟩ with
        | some out => .ok (some { mode := "idcard", keyword := "idcard", image := .idcard out })
        | none => .error "cv2.imwrite called with None crop"
    | .idcardDup => .ok none
    | .defaultFallback =>
      .ok (some { mode := "massara", keyword := "massara", image := .fullPage })

/-- A JSON value in this model: either `json.loads` succeeded on the source
string, or parsing failed and the string was wrapped as
`{"raw_response": ...}` (`tasks.py` lines 191-195). -/
inductive PJson
  | parsed (src : String)
  | rawResponse (src : String)
deriving DecidableEq, Repr

/-- The claim-relevant fields of the `result_data` object built by
`process_gpt_extraction` (`tasks.py` lines 198-208); `task_id`, `filename`,
`batch_id` and `processed_at` are context metadata threaded through
unchanged and are omitted. -/
structure GptResultData where
  result : Option PJson
  rawText : String
  skippedPages : List Nat
  imagePaths : List String
deriving DecidableEq, Repr

/-- The Progress Events `process_gpt_extraction` can publish. -/
inductive GEvent
  | progressGptStart
  | completedEmpty
  | stepCompletedExtraction
  | errorGpt
  | batchCompleted
deriving DecidableEq, Repr

/-- The observable effects of one run of `process_gpt_extraction`: published
events, number of `run_gpt_pipeline` calls, number of `json.loads` calls,
batch-counter decrements, `batch_completed` emissions, and the returned
value (`none`: the task re-raised). -/
structure GptOut where
  events : List GEvent
  gptCalls : Nat
  parseCalls : Nat
  decrements : Nat
  batchEmits : Nat
  ret : Option GptResultData
deriving DecidableEq, Repr

/-- `process_gpt_extraction` (`tasks.py` lines 126-241).  `gptPipeline` is
the structuring-adapter oracle (`none`: `run_gpt_pipeline` raised),
`parseOk s` says whether `json.loads s` succeeds, `counter` is the Redis
batch counter.  Returns the observable effects and the new counter. -/
def process_gpt_extraction (text : String) (skippedPages : List Nat)
    (imagePaths : List String) (gptPipeline : Option String)
    (parseOk : String → Bool) (batchId : Option String) (counter : Int) :
    GptOut × Int :=
  let mainEvents : List GEvent := if text = "" then [.completedEmpty] else [.progressGptStart]
  let gptCalls := if text = "" then 0 else 1
  let mainRet : Option (Option String) :=
    if text = "" then some none
    else match gptPipeline with
         | some s => some (some s)
         | none => none
  match mainRet with
  | some jsonOpt =>
    let parseCalls := match jsonOpt with
      | some s => if s = "" then 0 else 1
      | none => 0
    let parsed : Option PJson := match jsonOpt with
      | some s =>
        if s = "" then none
        else some (if parseOk s then .parsed s else .rawResponse s)
      | none => none
    let rd : GptResultData :=
      { result := parsed
        rawText := if 50000 < text.length then text.take 50000 ++ "..." else text
        skippedPages := skippedPages
        imagePaths := imagePaths }
    ({ events := mainEvents ++ [.stepCompletedExtraction], gptCalls := gptCalls,
       parseCalls := parseCalls, decrements := 0, batchEmits := 0, ret := some rd }, counter)
  | none =>
    match batchId with
    | some _ =>
      let remaining := counter - 1
      ({ events := mainEvents ++ [.errorGpt] ++
           (if remaining ≤ 0 then [.batchCompleted] else []),
         gptCalls := gptCalls, parseCalls := 0, decrements := 1,
         batchEmits := if remaining ≤ 0 then 1 else 0, ret := none }, remaining)
    | none =>
      ({ events := mainEvents ++ [.errorGpt], gptCalls := gptCalls, parseCalls := 0,
         decrements := 0, batchEmits := 0, ret := none }, counter)

/-- The shape of the payload carried by the `completed` event of the
validation task: whether `validation_review` was merged in, whether a
`validation_error` field was added, and whether `image_paths` is still
present. -/
structure ValPayload where
  hasReview : Bool
  hasValidationError : Bool
  imagePathsIncluded : Bool
deriving DecidableEq, Repr

/-- The Progress Events `process_validation_task` can publish. -/
inductive VEvent
  | progressValidation
  | completed (p : ValPayload)
  | batchCompleted
deriving DecidableEq, Repr

/-- The observable effects of one run of `process_validation_task`. -/
structure ValOut where
  events : List VEvent
  decrements : Nat
  batchEmits : Nat
  deletedInterimDir : Bool
  counterKeyDeleted : Bool
  ret : ValPayload
deriving DecidableEq, Repr

/-- `process_validation_task` (`tasks.py` lines 244-328).  `errorKeyInInput`
models the early `if "error" in extraction_result` return;
`validateAdapter` is the `validate_json_with_images` oracle (`Except.error`:
it raised).  Returns the observable effects and the new batch counter. -/
def process_validation_task (errorKeyInInput : Bool)
    (validateAdapter : Except String String)
    (batchId : Option String) (counter : Int) : ValOut × Int :=
  if errorKeyInInput then
    ({ events := [], decrements := 0, batchEmits := 0, deletedInterimDir := false,
       counterKeyDeleted := false,
       ret := { hasReview := false, hasValidationError := false, imagePathsIncluded := true } },
     counter)
  else
    match validateAdapter with
    | .ok _ =>
      let payload : ValPayload :=
        { hasReview := true, hasValidationError := false, imagePathsIncluded := false }
      match batchId with
      | some _ =>
        let remaining := counter - 1
        ({ events := [.progressValidation, .completed payload] ++
             (if remaining ≤ 0 then [.batchCompleted] else []),
           decrements := 1, batchEmits := if remaining ≤ 0 then 1 else 0,
           deletedInterimDir := true, counterKeyDeleted := decide (remaining ≤ 0),
           ret := payload }, remaining)
      | none =>
        ({ events := [.progressValidation, .completed payload], decrements := 0,
           batchEmits := 0, deletedInterimDir := true, counterKeyDeleted := false,
           ret := payload }, counter)
    | .error _ =>
      let payload : ValPayload :=
        { hasReview := false, hasValidationError := true, imagePathsIncluded := true }
      ({ events := [.progressValidation, .completed payload], decrements := 0,
         batchEmits := 0, deletedInterimDir := false, counterKeyDeleted := false,
         ret := payload }, counter)

/-- How one Document Job's Celery chain terminates: the OCR stage raises (the
chain halts and the later stages never run), the STRUCTURE stage raises, or
the VALIDATE stage runs with its adapter succeeding or raising. -/
inductive Outcome
  | ocrFails | structureFails | validateOk | validateRaises
deriving DecidableEq, Repr

/-- One Document Job's chain (`tasks.py`: `chain(ocr, gpt, validation)`),
returning `(decrements, batch_completed emissions, new counter)`.  A stage
that raises stops the chain, so `ocrFails` executes neither later task. -/
def runJobChain (o : Outcome) (batchId : Option String) (counter : Int) :
    Nat × Nat × Int :=
  match o with
  | .ocrFails => (0, 0, counter)
  | .structureFails =>
    let r := process_gpt_extraction "ocr text" [] [] none (fun _ => true) batchId counter
    (r.1.decrements, r.1.batchEmits, r.2)
  | .validateOk =>
    let g := process_gpt_extraction "ocr text" [] [] (some "null") (fun _ => true) batchId counter
    let v := process_validation_task false (.ok "review") batchId g.2
    (g.1.decrements + v.1.decrements, g.1.batchEmits + v.1.batchEmits, v.2)
  | .validateRaises =>
    let g := process_gpt_extraction "ocr text" [] [] (some "null") (fun _ => true) batchId counter
    let v := process_validation_task false (.error "validation adapter unreachable") batchId g.2
    (g.1.decrements + v.1.decrements, g.1.batchEmits + v.1.batchEmits, v.2)

/-- Runs a batch's jobs against the shared Redis counter (decrements are
atomic, so an arbitrary completion order is modelled by quantifying over the
outcome list).  Returns the list of counter values observed after each job,
the total number of decrements, and the total number of `batch_completed`
emissions. -/
def runJobsFrom (batchId : String) (counter : Int) :
    List Outcome → List Int × Nat × Nat
  | [] => ([], 0, 0)
  | o :: rest =>
    let r := runJobChain o (some batchId) counter
    let next := runJobsFrom batchId r.2.2 rest
    (r.2.2 :: next.1, r.1 + next.2.1, r.2.1 + next.2.2)

/-- A whole batch: the submission surface (`routes/pdf.py` line 63) sets the
counter to the number of submitted documents before any job runs. -/
def run_batch_jobs (batchId : String) (outcomes : List Outcome) :
    List Int × Nat × Nat :=
  runJobsFrom batchId (outcomes.length : Int) outcomes

/-- Whether a job outcome reaches one of the two decrement sites in the
source. -/
def decrementing (o : Outcome) : Bool :=
  o == .structureFails || o == .validateOk

/-- The result of one `_run_single_inference_task` call
(`pdf_processor.py` lines 1081-1122): the generated text, or the exception
object the call returned instead of raising. -/
inductive SingleRes
  | text (s : String)
  | exn (cls msg : String)
deriving DecidableEq, Repr

/-- The per-item post-processing of `run_batch_inference`
(`pdf_processor.py` lines 1159-1164): exceptions become
`f"API Error: {cls}: {msg}"` strings. -/
def renderResult : SingleRes → String
  | .text s => s
  | .exn cls msg => "API Error: " ++ cls ++ ": " ++ msg

/-- One completion step of the event loop: when task `i` finishes, its
outcome is stored in slot `i` of the `asyncio.gather` result array. -/
def gatherStep (outcomes : List α) (acc : List (Option α)) (i : Nat) :
    List (Option α) :=
  match outcomes[i]? with
  | some v => acc.set i (some v)
  | none => acc

/-- `asyncio.gather(*tasks, return_exceptions=True)`: tasks complete in the
arbitrary order `order`, each writing its outcome into its own slot; every
task returns (exceptions are returned as values), so no completion cancels
a sibling. -/
def asyncGather (outcomes : List α) (order : List Nat) : List (Option α) :=
  order.foldl (gatherStep outcomes) (List.replicate outcomes.length none)

/-- `run_batch_inference` (`pdf_processor.py` lines 1125-1166): empty input
short-circuits to `[]`; otherwise the gathered per-slot outcomes are read
out in slot order and rendered. -/
def run_batch_inference {γ : Type} (jobs : List γ) (adapter : γ → SingleRes)
    (order : List Nat) : List String :=
  if jobs.isEmpty then []
  else ((asyncGather (jobs.map adapter) order).filterMap id).map renderResult

/-- The gap between consecutive entries of a (sorted) y-coordinate list, as
scanned by `determine_orientation`. -/
def gapAt (ys : List Int) (i : Nat) : Int := ys.getD (i + 1) 0 - ys.getD i 0

/-- `run_batch_inference` of `app/core/ocr/inference.py` (lines 79-118),
which returns the gathered outcomes without stringifying exceptions. -/
def run_batch_inference_raw {γ : Type} (jobs : List γ) (adapter : γ → SingleRes)
    (order : List Nat) : List SingleRes :=
  (asyncGather (jobs.map adapter) order).filterMap id

/-! ## Theorems -/

theorem maxGapFold_spec (f : Nat → Int) (n : Nat) :
    (∀ i, i < n →
      f i ≤ ((List.range n).foldl
        (fun st i => if st.1 < f i then (f i, i) else st) ((0 : Int), (0 : Nat))).1) ∧
    (((List.range n).foldl
        (fun st i => if st.1 < f i then (f i, i) else st) ((0 : Int), (0 : Nat))) = (0, 0) ∨
      (((List.range n).foldl
        (fun st i => if st.1 < f i then (f i, i) else st) ((0 : Int), (0 : Nat))).2 < n ∧
       f (((List.range n).foldl
        (fun st i => if st.1 < f i then (f i, i) else st) ((0 : Int), (0 : Nat))).2) =
        ((List.range n).foldl
        (fun st i => if st.1 < f i then (f i, i) else st) ((0 : Int), (0 : Nat))).1)) := by
  induction n with
  | zero => simp
  | succ n ih =>
    rw [List.range_succ, List.foldl_append, List.foldl_cons, List.foldl_nil]
    obtain ⟨ih1, ih2⟩ := ih
    by_cases h : ((List.range n).foldl
        (fun st i => if st.1 < f i then (f i, i) else st) ((0 : Int), (0 : Nat))).1 < f n
    · rw [if_pos h]
      refine ⟨fun i hi => ?_, Or.inr ⟨Nat.lt_succ_self n, rfl⟩⟩
      rcases Nat.lt_succ_iff_lt_or_eq.mp hi with hi' | rfl
      · exact le_of_lt (lt_of_le_of_lt (ih1 i hi') h)
      · exact le_refl _
    · rw [if_neg h]
      refine ⟨fun i hi => ?_, ?_⟩
      · rcases Nat.lt_succ_iff_lt_or_eq.mp hi with hi' | rfl
        · exact ih1 i hi'
        · exact le_of_not_lt h
      · rcases ih2 with h2 | ⟨h2a, h2b⟩
        · exact Or.inl h2
        · exact Or.inr ⟨Nat.lt_succ_of_lt h2a, h2b⟩

theorem sorted_gapAt_nonneg (ys : List Int) (hs : List.Sorted (· ≤ ·) ys) :
    ∀ i, i + 1 < ys.length → 0 ≤ gapAt ys i := by
  intro i hi
  have hii : i < ys.length := by omega
  have h1 : ys.getD i 0 = ys.get ⟨i, hii⟩ := List.getD_eq_get _ _ hii
  have h2 : ys.getD (i + 1) 0 = ys.get ⟨i + 1, hi⟩ := List.getD_eq_get _ _ hi
  have h3 := hs.rel_get_of_lt (a := ⟨i, hii⟩) (b := ⟨i + 1, hi⟩)
    (by simp [Fin.lt_def])
  unfold gapAt
  rw [h1, h2]
  omega

theorem findMaxGapSplit_is_max (ys : List Int) (hs : List.Sorted (· ≤ ·) ys)
    (hlen : 2 ≤ ys.length) :
    findMaxGapSplit ys + 1 < ys.length ∧
    ∀ i, i + 1 < ys.length → gapAt ys i ≤ gapAt ys (findMaxGapSplit ys) := by
  obtain ⟨h1, h2⟩ := maxGapFold_spec (fun i => ys.getD (i + 1) 0 - ys.getD i 0) (ys.length - 1)
  have hnn := sorted_gapAt_nonneg ys hs
  have hdef : findMaxGapSplit ys =
      ((List.range (ys.length - 1)).foldl
        (fun st i =>
          if st.1 < ys.getD (i + 1) 0 - ys.getD i 0
          then (ys.getD (i + 1) 0 - ys.getD i 0, i) else st)
        ((0 : Int), (0 : Nat))).2 := rfl
  rcases h2 with h2 | ⟨h2a, h2b⟩
  · have hsplit : findMaxGapSplit ys = 0 := by rw [hdef, h2]
    constructor
    · omega
    · intro i hi
      have hle := h1 i (by omega)
      rw [h2] at hle
      have hge0 : 0 ≤ gapAt ys 0 := hnn 0 (by omega)
      rw [hsplit]
      calc gapAt ys i ≤ 0 := hle
        _ ≤ gapAt ys 0 := hge0
  · rw [← hdef] at h2a h2b
    constructor
    · omega
    · intro i hi
      have hle := h1 i (by omega)
      unfold gapAt
      rw [h2b]
      exact hle

/-- C3: `determine_orientation` returns 0 for fewer than three centroids;
with at least three, the sorted y-coordinates are split after the largest
gap between consecutive values (the recorded split index attains the
maximal gap) and the result is 0 exactly when the top group (indices up to
the split) is strictly larger than the bottom group; on the spec's two
examples the results are 0° and 180°. -/
theorem C3_determine_orientation_correct :
    (∀ pcs : List (Int × Int), pcs.length < 3 → determine_orientation pcs = 0) ∧
    (∀ pcs : List (Int × Int), 3 ≤ pcs.length →
      ((determine_orientation pcs = 0 ↔
        ((pcs.map Prod.snd).insertionSort (· ≤ ·)).length -
            (findMaxGapSplit ((pcs.map Prod.snd).insertionSort (· ≤ ·)) + 1) <
          findMaxGapSplit ((pcs.map Prod.snd).insertionSort (· ≤ ·)) + 1) ∧
       (∀ i, i + 1 < ((pcs.map Prod.snd).insertionSort (· ≤ ·)).length →
         gapAt ((pcs.map Prod.snd).insertionSort (· ≤ ·)) i ≤
           gapAt ((pcs.map Prod.snd).insertionSort (· ≤ ·))
             (findMaxGapSplit ((pcs.map Prod.snd).insertionSort (· ≤ ·)))))) ∧
    determine_orientation [(0, 10), (0, 12), (0, 100)] = 0 ∧
    determine_orientation [(0, 10), (0, 98), (0, 100)] = 180 := by
  refine ⟨fun pcs h => ?_, fun pcs h3 => ?_, by decide, by decide⟩
  · simp [determine_orientation, h]
  · have hlen : ((pcs.map Prod.snd).insertionSort (· ≤ ·)).length = pcs.length := by
      rw [List.length_insertionSort, List.length_map]
    have hs : List.Sorted (· ≤ ·) ((pcs.map Prod.snd).insertionSort (· ≤ ·)) :=
      List.sorted_insertionSort _ _
    have hmax := findMaxGapSplit_is_max _ hs (by omega)
    refine ⟨?_, hmax.2⟩
    unfold determine_orientation
    rw [if_neg (by omega : ¬ pcs.length < 3)]
    show (if ((pcs.map Prod.snd).insertionSort (· ≤ ·)).length -
            (findMaxGapSplit ((pcs.map Prod.snd).insertionSort (· ≤ ·)) + 1) <
          findMaxGapSplit ((pcs.map Prod.snd).insertionSort (· ≤ ·)) + 1
        then 0 else 180) = 0 ↔ _
    by_cases hc :
        ((pcs.map Prod.snd).insertionSort (· ≤ ·)).length -
            (findMaxGapSplit ((pcs.map Prod.snd).insertionSort (· ≤ ·)) + 1) <
          findMaxGapSplit ((pcs.map Prod.snd).insertionSort (· ≤ ·)) + 1
    · rw [if_pos hc]
      exact iff_of_true rfl hc
    · rw [if_neg hc]
      exact iff_of_false (by omega) hc

/-- Witness for C3 at concrete inputs. -/
theorem C3_witness :
    (([(0, 5)] : List (Int × Int)).length < 3 ∧ determine_orientation [(0, 5)] = 0) ∧
    (3 ≤ ([(0, 10), (0, 12), (0, 100)] : List (Int × Int)).length ∧
      determine_orientation [(0, 10), (0, 12), (0, 100)] = 0) := by
  refine ⟨⟨by decide, C3_determine_orientation_correct.1 [(0, 5)] (by decide)⟩,
    ⟨by decide, ?_⟩⟩
  exact (C3_determine_orientation_correct.2.1 [(0, 10), (0, 12), (0, 100)]
    (by decide)).1.mpr (by decide)

/-- C4: the 180° coordinate remap is an involution on boxes whose
coordinates are already sorted (`x1 ≤ x2`, `y1 ≤ y2`). -/
theorem C4_rotate_box_involution (W H : Int) (b : Box)
    (hx : b.x1 ≤ b.x2) (hy : b.y1 ≤ b.y2) :
    rotateBox180 W H (rotateBox180 W H b) = b := by
  cases b with
  | mk x1 y1 x2 y2 =>
    simp only [rotateBox180, Box.mk.injEq] at *
    refine ⟨?_, ?_, ?_, ?_⟩ <;> omega

/-- Witness for C4 at a concrete box. -/
theorem C4_witness :
    (1 : Int) ≤ 3 ∧ (2 : Int) ≤ 4 ∧
    rotateBox180 10 20 (rotateBox180 10 20 ⟨1, 2, 3, 4⟩) = ⟨1, 2, 3, 4⟩ :=
  ⟨by decide, by decide, C4_rotate_box_involution 10 20 ⟨1, 2, 3, 4⟩ (by decide) (by decide)⟩

/-- C9 counterexample: a concrete identity-card run in a 100×100 image with
QR box `[0,90,10,100]` (expanded crop area 2320) and a single layout box
`[0,0,24,29]` of area 696 — exactly 30% of 2320.  The claim says a box whose
area equals exactly 30% of the expanded crop area is whitened, but the
source's strict `item_area < 0.3 * expanded_area` guard leaves the whitened
list empty. -/
theorem C9_counterexample :
    process_and_crop_qr_region 100 100 [⟨0, 90, 10, 100⟩] [⟨0, 0, 24, 29⟩] [] ⟨4, 1⟩ ⟨29, 5⟩ =
      some { orientationAngle := 0, finalBox := ⟨0, 60, 58, 100⟩,
             expandedArea := 2320, whitened := [] } ∧
    ((24 * 29 : Int) : ℚ) = (3 / 10 : ℚ) * (2320 : ℚ) := by
  constructor
  · decide
  · norm_num

/-- C9 amended: a layout box labeled `image`, transformed into working
coordinates and clamped to the image bounds, is whitened exactly when its
clamped area is *strictly less than* 30% of the expanded crop area; a box
at exactly 30% (or more) is left untouched. -/
theorem C9_whitening_threshold_amended (W H : Int)
    (detections imageBoxes : List Box) (pcs : List (Int × Int)) (eUp eRight : PyFloat)
    (out : CropOut)
    (hrun : process_and_crop_qr_region W H detections imageBoxes pcs eUp eRight = some out) :
    (∀ b ∈ imageBoxes,
      ((fun ib =>
          let rb := if out.orientationAngle = 180 then rotateBox180 W H ib else ib
          Box.mk (max 0 rb.x1) (max 0 rb.y1) (min W rb.x2) (min H rb.y2)) b ∈ out.whitened ↔
        (let rb := if out.orientationAngle = 180 then rotateBox180 W H b else b
         let cb := Box.mk (max 0 rb.x1) (max 0 rb.y1) (min W rb.x2) (min H rb.y2)
         10 * ((cb.x2 - cb.x1) * (cb.y2 - cb.y1)) < 3 * out.expandedArea))) ∧
    (∀ A E : Int, 10 * A < 3 * E ↔ ((A : ℚ) < (3 / 10 : ℚ) * (E : ℚ))) := by
  constructor
  · intro b hb
    cases detections with
    | nil => simp [process_and_crop_qr_region] at hrun
    | cons target rest =>
      simp only [process_and_crop_qr_region] at hrun
      repeat' split at hrun
      any_goals exact Option.noConfusion hrun
      all_goals rw [Option.some.injEq] at hrun
      all_goals subst hrun
      all_goals dsimp only
      all_goals split
      all_goals first
        | (constructor
           · intro hmem
             exact of_decide_eq_true (List.mem_filter.mp hmem).2
           · intro hlt
             exact List.mem_filter.mpr ⟨List.mem_map_of_mem _ hb, decide_eq_true hlt⟩)
        | simp_all
  · intro A E
    rw [div_mul_eq_mul_div, lt_div_iff (by norm_num : (0 : ℚ) < 10)]
    constructor
    · intro h
      have hc : ((10 * A : Int) : ℚ) < ((3 * E : Int) : ℚ) := by exact_mod_cast h
      push_cast at hc
      linarith
    · intro h
      have hc : ((10 * A : Int) : ℚ) < ((3 * E : Int) : ℚ) := by push_cast; linarith
      exact_mod_cast hc

/-- Witness for the amended C9: a clamped box of area 672 < 0.3·2320 is in
the whitened list of the same concrete run. -/
theorem C9_witness :
    (⟨0, 0, 24, 28⟩ : Box) ∈
      ({ orientationAngle := 0, finalBox := ⟨0, 60, 58, 100⟩, expandedArea := 2320,
         whitened := [⟨0, 0, 24, 28⟩] } : CropOut).whitened := by
  have h := (C9_whitening_threshold_amended 100 100 [⟨0, 90, 10, 100⟩] [⟨0, 0, 24, 28⟩]
    [] ⟨4, 1⟩ ⟨29, 5⟩
    { orientationAngle := 0, finalBox := ⟨0, 60, 58, 100⟩, expandedArea := 2320,
      whitened := [⟨0, 0, 24, 28⟩] } (by decide)).1 ⟨0, 0, 24, 28⟩ (by decide)
  exact h.mpr (by decide)

theorem gatherFold_length (outcomes : List α) (order : List Nat)
    (acc : List (Option α)) :
    (order.foldl (gatherStep outcomes) acc).length = acc.length := by
  induction order generalizing acc with
  | nil => rfl
  | cons i rest ih =>
    rw [List.foldl_cons, ih]
    unfold gatherStep
    cases outcomes[i]? <;> simp

theorem gatherFold_get (outcomes : List α) (order : List Nat)
    (acc : List (Option α)) (hlen : acc.length = outcomes.length)
    (j : Nat) (hj : j < outcomes.length)
    (hmem : j ∈ order ∨ acc.get? j = some (some (outcomes.get ⟨j, hj⟩))) :
    (order.foldl (gatherStep outcomes) acc).get? j =
      some (some (outcomes.get ⟨j, hj⟩)) := by
  induction order generalizing acc with
  | nil =>
    rcases hmem with h | h
    · simp at h
    · simpa using h
  | cons i rest ih =>
    rw [List.foldl_cons]
    apply ih
    · unfold gatherStep
      cases outcomes[i]? <;> simp [hlen]
    · rcases hmem with h | h
      · rcases List.mem_cons.mp h with rfl | hrest
        · right
          unfold gatherStep
          have hoj : outcomes[j]? = some (outcomes.get ⟨j, hj⟩) := by
            rw [List.getElem?_eq_getElem hj, List.get_eq_getElem]
          rw [hoj]
          exact List.get?_set_eq_of_lt _ (hlen ▸ hj)
        · exact Or.inl hrest
      · right
        unfold gatherStep
        cases hoi : outcomes[i]? with
        | none => exact h
        | some v =>
          by_cases hij : i = j
          · subst hij
            have hv : v = outcomes.get ⟨i, hj⟩ := by
              rw [List.getElem?_eq_getElem hj] at hoi
              injection hoi with h'
              rw [List.get_eq_getElem]
              exact h'.symm
            rw [hv]
            exact List.get?_set_eq_of_lt _ (hlen ▸ hj)
          · rw [List.get?_set_ne _ _ hij]
            exact h

theorem asyncGather_eq (outcomes : List α) (order : List Nat)
    (hcov : ∀ j, j < outcomes.length → j ∈ order) :
    asyncGather outcomes order = outcomes.map some := by
  apply List.ext_get?
  intro n
  by_cases hn : n < outcomes.length
  · unfold asyncGather
    rw [gatherFold_get outcomes order _ (by simp) n hn (Or.inl (hcov n hn))]
    rw [List.get?_map, List.get?_eq_get hn]
    rfl
  · have h1 : (asyncGather outcomes order).length = outcomes.length := by
      unfold asyncGather
      rw [gatherFold_length]
      simp
    have hl : (asyncGather outcomes order).get? n = none :=
      List.get?_eq_none.mpr (by rw [h1]; omega)
    have hr : (outcomes.map some).get? n = none :=
      List.get?_eq_none.mpr (by rw [List.length_map]; omega)
    rw [hl, hr]

theorem filterMap_id_map_some (l : List α) : (l.map some).filterMap id = l := by
  induction l with
  | nil => rfl
  | cons a t ih => simp [ih]

/-- C2: whenever the completion schedule eventually completes every task
(in any order), `run_batch_inference` returns one entry per input job in
input order — the adapter's text on success, or an
`"API Error: <class>: <message>"` entry on failure — sibling results are
unaffected by a failing call, the empty batch yields `[]`, and the
`ocr/inference.py` variant likewise returns the per-job outcomes in input
order. -/
theorem C2_run_batch_inference_ordered (γ : Type) (jobs : List γ)
    (adapter : γ → SingleRes) (order : List Nat)
    (hcov : ∀ j, j < jobs.length → j ∈ order) :
    run_batch_inference jobs adapter order =
      jobs.map (fun g => renderResult (adapter g)) ∧
    (run_batch_inference jobs adapter order).length = jobs.length ∧
    (∀ i (hi : i < jobs.length),
      (run_batch_inference jobs adapter order).get? i =
        some (renderResult (adapter (jobs.get ⟨i, hi⟩)))) ∧
    run_batch_inference ([] : List γ) adapter order = [] ∧
    run_batch_inference_raw jobs adapter order = jobs.map adapter := by
  have hg : asyncGather (jobs.map adapter) order = (jobs.map adapter).map some :=
    asyncGather_eq _ _ (by simpa using hcov)
  have hmain : run_batch_inference jobs adapter order =
      jobs.map (fun g => renderResult (adapter g)) := by
    cases jobs with
    | nil => rfl
    | cons a t =>
      unfold run_batch_inference
      rw [if_neg (by simp)]
      rw [hg, filterMap_id_map_some, List.map_map]
      rfl
  refine ⟨hmain, ?_, ?_, rfl, ?_⟩
  · rw [hmain, List.length_map]
  · intro i hi
    rw [hmain, List.get?_map, List.get?_eq_get hi]
    rfl
  · unfold run_batch_inference_raw
    rw [hg, filterMap_id_map_some]

/-- Witness for C2: two jobs whose completion order is reversed (the later
job finishes first); the failing second job is isolated as an error string
and ordering is preserved. -/
theorem C2_witness :
    run_batch_inference ["a", "b"]
      (fun s => if s = "a" then .text "ok-a" else .exn "ValueError" "bad") [1, 0] =
      ["ok-a", "API Error: ValueError: bad"] :=
  ((C2_run_batch_inference_ordered String ["a", "b"]
    (fun s => if s = "a" then .text "ok-a" else .exn "ValueError" "bad") [1, 0]
    (by decide)).1).trans (by decide)

theorem pyInt_intCast_div_nonneg (u : Int) (d : Nat) (hu : 0 ≤ u) (hd : 0 < d) :
    pyInt ((u : ℚ) / (d : ℚ)) = u.tdiv d := by
  have hq0 : 0 ≤ ((u : ℚ) / (d : ℚ)) :=
    div_nonneg (by exact_mod_cast hu) (by positivity)
  have hnum : 0 ≤ ((u : ℚ) / (d : ℚ)).num := Rat.num_nonneg.mpr hq0
  unfold pyInt
  rw [Int.tdiv_eq_ediv hnum (Int.ofNat_nonneg _)]
  rw [Int.tdiv_eq_ediv hu (Int.ofNat_nonneg _)]
  rw [← Rat.floor_def]
  exact Rat.floor_intCast_div_natCast u d

theorem pyInt_intCast_div (u : Int) (d : Nat) (hd : 0 < d) :
    pyInt ((u : ℚ) / (d : ℚ)) = u.tdiv d := by
  by_cases hu : 0 ≤ u
  · exact pyInt_intCast_div_nonneg u d hu hd
  · push_neg at hu
    have h1 : (u : ℚ) / (d : ℚ) = -(((-u : Int) : ℚ) / (d : ℚ)) := by
      push_cast
      ring
    have h2 : pyInt (-(((-u : Int) : ℚ) / (d : ℚ))) =
        -pyInt (((-u : Int) : ℚ) / (d : ℚ)) := by
      unfold pyInt
      rw [Rat.neg_num, Rat.neg_den, Int.neg_tdiv]
    rw [h1, h2, pyInt_intCast_div_nonneg (-u) d (by omega) hd]
    rw [Int.neg_tdiv]
    ring

theorem pyTruncMulAdd_eq_pyInt (a w : Int) (f : PyFloat) (hf : 0 < f.den) :
    pyTruncMulAdd a w f = pyInt ((a : ℚ) + (w : ℚ) * f.val) := by
  unfold pyTruncMulAdd PyFloat.val
  have hden : ((f.den : ℚ)) ≠ 0 := by positivity
  have h : (a : ℚ) + (w : ℚ) * ((f.num : ℚ) / (f.den : ℚ)) =
      ((a * f.den + w * f.num : Int) : ℚ) / (f.den : ℚ) := by
    push_cast
    rw [eq_div_iff hden, add_mul, mul_assoc, div_mul_cancel₀ _ hden]
  rw [h, pyInt_intCast_div _ _ hf]

theorem final_box_components (W H : Int) (qb : Box) (eUp eRight : PyFloat)
    (hu : 0 < eUp.den) (hr : 0 < eRight.den) :
    (Box.mk (max 0 qb.x1) (max 0 (pyTruncMulAdd qb.y2 (qb.y1 - qb.y2) eUp))
        (min W (pyTruncMulAdd qb.x1 (qb.x2 - qb.x1) eRight)) (min H qb.y2)) =
      specCropRect W H qb eUp.val eRight.val := by
  unfold specCropRect
  rw [Box.mk.injEq]
  refine ⟨rfl, ?_, ?_, rfl⟩
  · rw [pyTruncMulAdd_eq_pyInt _ _ _ hu]
    have harg : ((qb.y2 : ℚ) + ((qb.y1 - qb.y2 : Int) : ℚ) * eUp.val) =
        ((qb.y2 : ℚ) - ((qb.y2 - qb.y1 : Int) : ℚ) * eUp.val) := by
      push_cast
      ring
    rw [harg]
  · rw [pyTruncMulAdd_eq_pyInt _ _ _ hr]

/-- C5: with `qb` the (possibly 180°-rotated) first QR detection box,
`w = x2-x1`, `h = y2-y1`, the crop rectangle produced by
`process_and_crop_qr_region` equals `[x1, y2 - h*Eup, x1 + w*Eright, y2]`
clamped to the image bounds (stated over ℚ exactly as the claim words it);
the routine returns no image exactly when that rectangle is empty; the two
identity-card branches of `prepare_janzour_page` call it with `Eup = 4.0`
and `Eright = 5.8` and `5.9` respectively; and a page on which
`prepare_janzour_page` returns `None` is recorded in `skipped_pages` by the
`process_janzour_pdf` page loop. -/
theorem C5_idcard_crop_formula :
    (∀ (W H : Int) (target : Box) (rest imageBoxes : List Box)
        (pcs : List (Int × Int)) (eUp eRight : PyFloat) (out : CropOut),
      0 < eUp.den → 0 < eRight.den →
      process_and_crop_qr_region W H (target :: rest) imageBoxes pcs eUp eRight = some out →
      out.finalBox =
        specCropRect W H
          (if qrOrientation target pcs = 180 then rotateBox180 W H target else target)
          eUp.val eRight.val) ∧
    (∀ (W H : Int) (target : Box) (rest imageBoxes : List Box)
        (pcs : List (Int × Int)) (eUp eRight : PyFloat),
      0 < eUp.den → 0 < eRight.den →
      (process_and_crop_qr_region W H (target :: rest) imageBoxes pcs eUp eRight = none ↔
        ¬ ((specCropRect W H
              (if qrOrientation target pcs = 180 then rotateBox180 W H target else target)
              eUp.val eRight.val).x1 <
            (specCropRect W H
              (if qrOrientation target pcs = 180 then rotateBox180 W H target else target)
              eUp.val eRight.val).x2 ∧
           (specCropRect W H
              (if qrOrientation target pcs = 180 then rotateBox180 W H target else target)
              eUp.val eRight.val).y1 <
            (specCropRect W H
              (if qrOrientation target pcs = 180 then rotateBox180 W H target else target)
              eUp.val eRight.val).y2))) ∧
    (∀ (W H : Int) (o : PageOracles) (results : List Detection),
      o.imageLoads = true → o.layout = some results →
      results.find? (fun item => item.label == "doc_title") = none →
      results.find? (fun item => item.label == "paragraph_title") = none →
      results.any (fun item => item.label == "table") = false →
      results.any (fun item => item.label == "header" || item.label == "header_image") = true →
      o.qr ≠ [] →
      prepare_janzour_page W H o =
        (process_and_crop_qr_region W H o.qr
          ((results.filter (fun item => item.label == "image")).map (fun d => d.bbox))
          o.patternCenters ⟨4, 1⟩ ⟨29, 5⟩).map
          (fun out => { mode := "idcard", keyword := "idcard", image := .idcard out })) ∧
    (∀ (W H : Int) (o : PageOracles) (results : List Detection),
      o.imageLoads = true → o.layout = some results →
      results.find? (fun item => item.label == "doc_title") = none →
      results.find? (fun item => item.label == "paragraph_title") = none →
      results.any (fun item => item.label == "header" || item.label == "header_image") = false →
      o.qr ≠ [] →
      prepare_janzour_page W H o =
        (process_and_crop_qr_region W H o.qr
          ((results.filter (fun item => item.label == "image")).map (fun d => d.bbox))
          o.patternCenters ⟨4, 1⟩ ⟨59, 10⟩).map
          (fun out => { mode := "idcard", keyword := "idcard", image := .idcard out })) ∧
    (∀ (W H : Int) (idx0 : Nat) (pages : List PageOracles) (i : Nat) (hi : i < pages.length),
      prepare_janzour_page W H (pages.get ⟨i, hi⟩) = none →
      (idx0 + i) ∈ (collect_janzour_pages W H idx0 pages).2) := by
  refine ⟨?_, ?_, ?_, ?_, ?_⟩
  · intro W H target rest imageBoxes pcs eUp eRight out hu hr hrun
    simp only [process_and_crop_qr_region] at hrun
    repeat' split at hrun
    any_goals exact Option.noConfusion hrun
    all_goals rw [Option.some.injEq] at hrun
    all_goals subst hrun
    all_goals dsimp only
    all_goals split
    all_goals try simp only [neg_sub]
    any_goals exact final_box_components W H (rotateBox180 W H target) eUp eRight hu hr
    any_goals exact final_box_components W H target eUp eRight hu hr
    all_goals simp_all
  · intro W H target rest imageBoxes pcs eUp eRight hu hr
    simp only [process_and_crop_qr_region, neg_sub]
    split
    all_goals rw [← final_box_components W H _ eUp eRight hu hr]
    all_goals dsimp only
    all_goals split
    all_goals first
      | (rename_i hcc
         exact iff_of_false (by simp) (not_not_intro hcc))
      | (rename_i hcc
         exact iff_of_true rfl hcc)
  · intro W H o results hload hlay hdoc hpara htab hhead hqr
    unfold prepare_janzour_page
    rw [hload, hlay]
    simp only [hdoc, hpara, htab, hhead, Option.isNone_none, if_true, Bool.not_false,
      Bool.true_and, Bool.and_true, Bool.false_and, Bool.not_true]
    cases hq : o.qr with
    | nil => exact absurd hq hqr
    | cons q qs =>
      cases hpc : process_and_crop_qr_region W H (q :: qs)
          ((results.filter (fun item => item.label == "image")).map (fun d => d.bbox))
          o.patternCenters ⟨4, 1⟩ ⟨29, 5⟩ with
      | some out => simp
      | none => simp
  · intro W H o results hload hlay hdoc hpara hhead hqr
    unfold prepare_janzour_page
    rw [hload, hlay]
    simp only [hdoc, hpara, hhead, Option.isNone_none, if_true, Bool.not_false,
      Bool.and_false, Bool.false_and, Bool.and_true, Bool.true_and]
    cases hq : o.qr with
    | nil => exact absurd hq hqr
    | cons q qs =>
      cases hpc : process_and_crop_qr_region W H (q :: qs)
          ((results.filter (fun item => item.label == "image")).map (fun d => d.bbox))
          o.patternCenters ⟨4, 1⟩ ⟨59, 10⟩ with
      | some out => simp
      | none => simp
  · intro W H idx0 pages
    induction pages generalizing idx0 with
    | nil =>
      intro i hi
      simp at hi
    | cons p rest ih =>
      intro i hi hskip
      cases i with
      | zero =>
        simp only [List.get] at hskip
        unfold collect_janzour_pages
        rw [hskip]
        simp
      | succ n =>
        simp only [List.get] at hskip
        have := ih (idx0 + 1) n (by simpa using Nat.lt_of_succ_lt_succ hi) hskip
        unfold collect_janzour_pages
        cases prepare_janzour_page W H p with
        | some job =>
          simpa [Nat.add_assoc, Nat.add_comm 1 n] using this
        | none =>
          simp only [List.mem_cons]
          right
          simpa [Nat.add_assoc, Nat.add_comm 1 n] using this

/-- Witness for C5 at a concrete identity-card run. -/
theorem C5_witness :
    ({ orientationAngle := 0, finalBox := ⟨0, 60, 58, 100⟩, expandedArea := 2320,
       whitened := [] } : CropOut).finalBox =
      specCropRect 100 100
        (if qrOrientation ⟨0, 90, 10, 100⟩ [] = 180
         then rotateBox180 100 100 ⟨0, 90, 10, 100⟩ else ⟨0, 90, 10, 100⟩)
        (PyFloat.val ⟨4, 1⟩) (PyFloat.val ⟨29, 5⟩) :=
  C5_idcard_crop_formula.1 100 100 ⟨0, 90, 10, 100⟩ [] [] [] ⟨4, 1⟩ ⟨29, 5⟩
    { orientationAngle := 0, finalBox := ⟨0, 60, 58, 100⟩, expandedArea := 2320,
      whitened := [] } (by decide) (by decide) (by decide)

/-- C6 counterexample: a page whose layout holds a `doc_title` and no table.
The claim says absence of a table selects the identity-card fallback, but
the source's condition `doc_title is not None or paragraph_title is not
None and has_table` parses as `doc or (para and table)`, so this page takes
the medicine branch: `prepare_massara_page` returns a "massara medicine"
job instead of consulting the QR detector. -/
theorem C6_counterexample :
    massara_branch true false false = MBranch.medicine ∧
    MBranch.medicine ≠ MBranch.idcardFallback ∧
    prepare_massara_page 100 100
      { imageLoads := true, layout := some [⟨"doc_title", ⟨0, 0, 10, 10⟩⟩],
        titleProbe := some "x", qr := [], patternCenters := [] } =
      .ok (some { mode := "massara", keyword := "massara medicine", image := .fullPage }) :=
  ⟨rfl, by decide, rfl⟩

/-- C6 amended: in `prepare_massara_page` the structured massara mode is
selected exactly when neither title is present and a table exists (and then
the image is cropped from below the header region up to the footer); the
medicine sub-variant (whose probe text is checked against the marker
phrases, any hit skipping the page) is selected exactly when a `doc_title`
is present — regardless of a table — or a `paragraph_title` is present
together with a table; and the identity-card fallback is taken exactly when
there is no table *and no `doc_title`*. -/
theorem C6_massara_branch_amended :
    (∀ doc para table : Bool,
      (massara_branch doc para table = .structured ↔
        doc = false ∧ para = false ∧ table = true) ∧
      (massara_branch doc para table = .medicine ↔
        doc = true ∨ (para = true ∧ table = true)) ∧
      (massara_branch doc para table = .idcardFallback ↔
        doc = false ∧ table = false) ∧
      massara_branch doc para table ≠ .idcardDup ∧
      massara_branch doc para table ≠ .defaultFallback) ∧
    (∀ (W H : Int) (o : PageOracles) (results : List Detection),
      o.imageLoads = true → o.layout = some results →
      massara_branch (results.find? (fun item => item.label == "doc_title")).isSome
        (results.find? (fun item => item.label == "paragraph_title")).isSome
        (results.any (fun item => item.label == "table")) = .structured →
      prepare_massara_page W H o = .ok (some
        { mode := "massara", keyword := "massara",
          image := .massaraHeaderCrop
            (Option.map (fun h => h.bbox)
              (match results.find? (fun item => item.label == "header_image") with
                | some h => some h
                | none => results.find? (fun item => item.label == "header")))
            (Option.map (fun f => f.bbox)
              (results.find? (fun item => item.label == "footer"))) })) ∧
    (∀ (W H : Int) (o : PageOracles) (results : List Detection) (s : String),
      o.imageLoads = true → o.layout = some results → o.titleProbe = some s →
      massara_branch (results.find? (fun item => item.label == "doc_title")).isSome
        (results.find? (fun item => item.label == "paragraph_title")).isSome
        (results.any (fun item => item.label == "table")) = .medicine →
      (pyContains "أدوية ومستلزمات من الايواء" s || pyContains "ورقة خروج" s ||
        pyContains "Discharge Paper" s) = true →
      prepare_massara_page W H o = .ok none) ∧
    (∀ (W H : Int) (o : PageOracles) (results : List Detection),
      o.imageLoads = true → o.layout = some results →
      massara_branch (results.find? (fun item => item.label == "doc_title")).isSome
        (results.find? (fun item => item.label == "paragraph_title")).isSome
        (results.any (fun item => item.label == "table")) = .idcardFallback →
      o.qr = [] →
      prepare_massara_page W H o = .ok none) := by
  refine ⟨by decide, ?_, ?_, ?_⟩
  · intro W H o results hload hlay hbr
    unfold prepare_massara_page
    rw [hload, hlay, if_neg (by simp : ¬(true = false))]
    dsimp only
    rw [hbr]
  · intro W H o results s hload hlay hprobe hbr hmark
    unfold prepare_massara_page
    rw [hload, hlay, if_neg (by simp : ¬(true = false))]
    dsimp only
    rw [hbr, hprobe]
    dsimp only
    by_cases h1 : pyContains "أدوية ومستلزمات من الايواء" s = true
    · simp [h1]
    · rw [if_neg h1]
      have hp1 : pyContains "أدوية ومستلزمات من الايواء" s = false := by
        simpa using h1
      rw [hp1, Bool.false_or] at hmark
      rw [if_pos hmark]
  · intro W H o results hload hlay hbr hq
    unfold prepare_massara_page
    rw [hload, hlay, if_neg (by simp : ¬(true = false))]
    dsimp only
    rw [hbr, hq]

/-- Witness for the amended C6 at a concrete structured page. -/
theorem C6_witness :
    prepare_massara_page 100 100
      { imageLoads := true,
        layout := some [⟨"table", ⟨0, 0, 5, 5⟩⟩, ⟨"header", ⟨0, 0, 9, 9⟩⟩,
          ⟨"footer", ⟨0, 80, 9, 90⟩⟩],
        titleProbe := none, qr := [], patternCenters := [] } =
      Except.ok (some
        { mode := "massara", keyword := "massara",
          image := .massaraHeaderCrop (some ⟨0, 0, 9, 9⟩) (some ⟨0, 80, 9, 90⟩) }) := by
  have h := C6_massara_branch_amended.2.1 100 100
    { imageLoads := true,
      layout := some [⟨"table", ⟨0, 0, 5, 5⟩⟩, ⟨"header", ⟨0, 0, 9, 9⟩⟩,
        ⟨"footer", ⟨0, 80, 9, 90⟩⟩],
      titleProbe := none, qr := [], patternCenters := [] }
    [⟨"table", ⟨0, 0, 5, 5⟩⟩, ⟨"header", ⟨0, 0, 9, 9⟩⟩, ⟨"footer", ⟨0, 80, 9, 90⟩⟩]
    rfl rfl (by decide)
  exact h.trans rfl

/-- C7: when the incoming OCR text is empty, the STRUCTURE stage makes no
structuring-LLM call and parses nothing, publishes a `completed` Progress
Event carrying an empty result, performs no decrement and no error event,
leaves the counter unchanged, and its returned `result` field is empty. -/
theorem C7_empty_text_short_circuit (skippedPages : List Nat)
    (imagePaths : List String) (gptPipeline : Option String)
    (parseOk : String → Bool) (batchId : Option String) (counter : Int) :
    (process_gpt_extraction "" skippedPages imagePaths gptPipeline parseOk
        batchId counter).1.gptCalls = 0 ∧
    (process_gpt_extraction "" skippedPages imagePaths gptPipeline parseOk
        batchId counter).1.parseCalls = 0 ∧
    GEvent.completedEmpty ∈ (process_gpt_extraction "" skippedPages imagePaths gptPipeline
        parseOk batchId counter).1.events ∧
    GEvent.errorGpt ∉ (process_gpt_extraction "" skippedPages imagePaths gptPipeline
        parseOk batchId counter).1.events ∧
    (process_gpt_extraction "" skippedPages imagePaths gptPipeline parseOk
        batchId counter).1.ret =
      some
        { result := none, rawText := "", skippedPages := skippedPages,
          imagePaths := imagePaths } ∧
    (process_gpt_extraction "" skippedPages imagePaths gptPipeline parseOk
        batchId counter).1.decrements = 0 ∧
    (process_gpt_extraction "" skippedPages imagePaths gptPipeline parseOk
        batchId counter).2 = counter := by
  refine ⟨rfl, rfl, ?_, ?_, rfl, rfl, rfl⟩
  · exact List.mem_cons_self _ _
  · intro hmem
    have : GEvent.errorGpt ∈ [GEvent.completedEmpty, GEvent.stepCompletedExtraction] := hmem
    simp at this

/-- C10: the `raw_text` field of the STRUCTURE stage's result object is the
first 50000 characters of the OCR text followed by `"..."` when the text is
longer than 50000 characters, and the text unchanged otherwise. -/
theorem C10_raw_text_truncation (text : String) (skippedPages : List Nat)
    (imagePaths : List String) (gptPipeline : Option String)
    (parseOk : String → Bool) (batchId : Option String) (counter : Int)
    (rd : GptResultData)
    (hret : (process_gpt_extraction text skippedPages imagePaths gptPipeline parseOk
        batchId counter).1.ret = some rd) :
    (50000 < text.length → rd.rawText = text.take 50000 ++ "...") ∧
    (text.length ≤ 50000 → rd.rawText = text) := by
  simp only [process_gpt_extraction] at hret
  repeat' split at hret
  any_goals exact Option.noConfusion hret
  all_goals rw [Option.some.injEq] at hret
  all_goals subst hret
  all_goals dsimp only
  all_goals constructor
  all_goals intro hlen
  all_goals first
    | omega
    | rfl
    | rw [if_pos hlen]
    | rw [if_neg (by omega)]

/-- Witness for C7 at a concrete empty-text run. -/
theorem C7_witness :
    (process_gpt_extraction "" [] [] none (fun _ => true) none 0).1.gptCalls = 0 :=
  (C7_empty_text_short_circuit [] [] none (fun _ => true) none 0).1

/-- Witness for C10 with a short text. -/
theorem C10_witness :
    ({ result := some (PJson.parsed "x"), rawText := "ab", skippedPages := [], imagePaths := [] } : GptResultData).rawText = "ab" :=
  (C10_raw_text_truncation "ab" [] [] (some "x") (fun _ => true) none 0
    { result := some (PJson.parsed "x"), rawText := "ab", skippedPages := [], imagePaths := [] }
    rfl).2 (by decide)

/-- C8 counterexample: a run of the validation task whose adapter raises.
The claim says the temporary page-image directory is deleted regardless of
the validation outcome, but the source's `shutil.rmtree` sits inside the
`try` block after the adapter call, so nothing is deleted on the exception
path — while the success path does delete. -/
theorem C8_counterexample :
    (process_validation_task false (Except.error "validation adapter unreachable")
        none 3).1.deletedInterimDir = false ∧
    (process_validation_task false (Except.ok "review") none 3).1.deletedInterimDir = true :=
  ⟨rfl, rfl⟩

/-- C8 amended: the VALIDATE stage deletes the job's temporary page-image
directory *only when the validation adapter call succeeds*; when the
adapter raises, the directory is retained.  A terminal `completed` event is
emitted in both cases — carrying the merged result (with
`validation_review`, without `image_paths`) on success, and the extraction
result annotated with `validation_error` (with `image_paths` still
present) on failure. -/
theorem C8_validation_cleanup_amended (validateAdapter : Except String String)
    (batchId : Option String) (counter : Int) :
    (∀ r : String, validateAdapter = .ok r →
      (process_validation_task false validateAdapter batchId counter).1.deletedInterimDir
          = true ∧
      VEvent.completed
          { hasReview := true, hasValidationError := false, imagePathsIncluded := false } ∈
        (process_validation_task false validateAdapter batchId counter).1.events) ∧
    (∀ e : String, validateAdapter = .error e →
      (process_validation_task false validateAdapter batchId counter).1.deletedInterimDir
          = false ∧
      VEvent.completed
          { hasReview := false, hasValidationError := true, imagePathsIncluded := true } ∈
        (process_validation_task false validateAdapter batchId counter).1.events) := by
  constructor
  · intro r hr
    subst hr
    unfold process_validation_task
    rw [if_neg (by simp : ¬(false = true))]
    dsimp only
    cases batchId with
    | none => exact ⟨rfl, by simp⟩
    | some bid =>
      refine ⟨rfl, ?_⟩
      dsimp only
      split
      · simp
      · simp
  · intro e he
    subst he
    exact ⟨rfl, by simp [process_validation_task]⟩

/-- Witness for the amended C8 at concrete adapter outcomes. -/
theorem C8_witness :
    (process_validation_task false (Except.ok "ok-review") (some "b") 2).1.deletedInterimDir
        = true ∧
    (process_validation_task false (Except.error "boom") (some "b") 2).1.deletedInterimDir
        = false :=
  ⟨((C8_validation_cleanup_amended (Except.ok "ok-review") (some "b") 2).1
      "ok-review" rfl).1,
   ((C8_validation_cleanup_amended (Except.error "boom") (some "b") 2).2
      "boom" rfl).1⟩

theorem runJobChain_decr (o : Outcome) (bid : String) (c : Int) :
    (runJobChain o (some bid) c).1 = if decrementing o = true then 1 else 0 := by
  cases o <;>
    simp [runJobChain, process_gpt_extraction, process_validation_task, decrementing]

theorem runJobChain_decr_none (o : Outcome) (c : Int) :
    (runJobChain o none c).1 = 0 := by
  cases o <;>
    simp [runJobChain, process_gpt_extraction, process_validation_task]

theorem runJobChain_counter (o : Outcome) (bid : String) (c : Int) :
    (runJobChain o (some bid) c).2.2 =
      c - (if decrementing o = true then 1 else 0) := by
  cases o <;>
    simp [runJobChain, process_gpt_extraction, process_validation_task, decrementing]

theorem runJobChain_emits (o : Outcome) (bid : String) (c : Int) :
    (runJobChain o (some bid) c).2.1 =
      if decrementing o = true ∧ c - 1 ≤ 0 then 1 else 0 := by
  cases o <;>
    simp [runJobChain, process_gpt_extraction, process_validation_task, decrementing] <;>
    split <;> simp_all

theorem runJobsFrom_trace_lb (bid : String) :
    ∀ (os : List Outcome) (c : Int),
      ∀ x ∈ (runJobsFrom bid c os).1, c - os.length ≤ x := by
  intro os
  induction os with
  | nil =>
    intro c x hx
    simp [runJobsFrom] at hx
  | cons o t ih =>
    intro c x hx
    simp only [runJobsFrom, List.mem_cons] at hx
    have hcnt := runJobChain_counter o bid c
    rcases hx with rfl | hx
    · rw [hcnt]
      simp only [List.length_cons]
      split <;> push_cast <;> omega
    · have := ih (runJobChain o (some bid) c).2.2 x hx
      rw [hcnt] at this
      simp only [List.length_cons]
      revert this
      split <;> push_cast <;> omega

theorem runJobsFrom_emits (bid : String) :
    ∀ (os : List Outcome) (c : Int), (os.length : Int) ≤ c →
      (runJobsFrom bid c os).2.2 =
        if 0 < os.length ∧ os.countP (fun o => decrementing o) = os.length ∧
            c = os.length then 1 else 0 := by
  intro os
  induction os with
  | nil =>
    intro c h
    simp [runJobsFrom]
  | cons o t ih =>
    intro c h
    have hcount : t.countP (fun o => decrementing o) ≤ t.length :=
      List.countP_le_length _
    have hstep : (runJobsFrom bid c (o :: t)).2.2 =
        (runJobChain o (some bid) c).2.1 +
          (runJobsFrom bid (runJobChain o (some bid) c).2.2 t).2.2 := rfl
    rw [hstep, runJobChain_emits, runJobChain_counter]
    simp only [List.length_cons] at h
    push_cast at h
    by_cases hdo : decrementing o = true
    · have hone : (if decrementing o = true then (1 : Int) else 0) = 1 := if_pos hdo
      rw [hone]
      rw [ih (c - 1) (by omega)]
      rw [List.countP_cons, List.length_cons, if_pos hdo]
      have hcond : (decrementing o = true ∧ c - 1 ≤ 0) ↔ (c - 1 ≤ 0) := by simp [hdo]
      simp only [hcond]
      clear hstep hone ih
      split_ifs <;> omega
    · have hz : (if decrementing o = true then (1 : Int) else 0) = 0 := if_neg hdo
      rw [hz, sub_zero]
      rw [ih c (by omega)]
      rw [List.countP_cons, List.length_cons, if_neg hdo]
      have hcond : (decrementing o = true ∧ c - 1 ≤ 0) ↔ False := by simp [hdo]
      simp only [hcond, if_false]
      clear hstep hz ih
      split_ifs <;> omega

/-- C1 counterexample: a job whose validation adapter raises performs zero
decrements of the batch counter (the `except` path of
`process_validation_task` has no decrement), and a job whose OCR stage
raises also performs zero decrements (the Celery chain halts before the
decrement sites) — contradicting "exactly one decrement per job regardless
of which stage fails". -/
theorem C1_counterexample :
    (runJobChain .validateRaises (some "batch-1") 1).1 = 0 ∧
    (runJobChain .ocrFails (some "batch-1") 1).1 = 0 ∧
    (0 : Nat) ≠ 1 :=
  ⟨rfl, rfl, by decide⟩

/-- C1 amended: a job decrements the batch counter exactly once if and only
if its chain ends in the STRUCTURE-failure handler or in a successful
validation (and a `batch_id` is present); jobs failing at OCR and jobs
whose validation adapter raises perform no decrement.  Starting from a
counter equal to the number of submitted jobs, the counter never becomes
negative, and `batch_completed` is emitted exactly once — by the decrement
that reaches zero — precisely when the batch is non-empty and every job
takes a decrementing path; otherwise it is never emitted. -/
theorem C1_batch_accounting_amended :
    (∀ (o : Outcome) (bid : String) (c : Int),
      (runJobChain o (some bid) c).1 = if decrementing o = true then 1 else 0) ∧
    (∀ (o : Outcome) (c : Int), (runJobChain o none c).1 = 0) ∧
    (∀ (bid : String) (outcomes : List Outcome),
      ∀ x ∈ (run_batch_jobs bid outcomes).1, 0 ≤ x) ∧
    (∀ (bid : String) (outcomes : List Outcome),
      (run_batch_jobs bid outcomes).2.2 =
        if 0 < outcomes.length ∧
            outcomes.countP (fun o => decrementing o) = outcomes.length then 1
        else 0) := by
  refine ⟨runJobChain_decr, runJobChain_decr_none, ?_, ?_⟩
  · intro bid outcomes x hx
    have := runJobsFrom_trace_lb bid outcomes (outcomes.length : Int) x hx
    omega
  · intro bid outcomes
    rw [run_batch_jobs, runJobsFrom_emits bid outcomes (outcomes.length : Int) le_rfl]
    split_ifs <;> simp_all

/-- Witness for the amended C1 on a concrete two-job batch. -/
theorem C1_witness :
    (0 : Int) ≤ 1 ∧
    (run_batch_jobs "b" [.validateOk, .structureFails]).2.2 = 1 := by
  constructor
  · exact C1_batch_accounting_amended.2.2.1 "b" [.validateOk, .structureFails] 1
      (by decide)
  · rw [C1_batch_accounting_amended.2.2.2 "b" [.validateOk, .structureFails]]
    decide

end MedOCR
